import Mathlib

/-!
Verification of the Mars-lander evolutionary solver.

The development shallowly embeds the Rust sources
(`src/simulation/{collision,physics,solver}.rs`) into Lean.  Machine floats
(`f64`) are modelled by exact rationals `ℚ` for all linear arithmetic and
comparisons, and by `ℝ` where the code takes square roots (`hypot`) or
trigonometric functions; integers (`i32`) are modelled by `ℤ`.  Randomness
(`rand::thread_rng`) is modelled by explicit oracle arguments supplying the
drawn values.
-/

/-- 2-D vector, from `collision.rs` `struct Vec2` (fields `x`, `y`). -/
structure Vec2 where
  x : ℚ
  y : ℚ
deriving DecidableEq, Repr

/-- `Vec2::cross`: `self.x * w.y - self.y * w.x`. -/
def Vec2.cross (v w : Vec2) : ℚ := v.x * w.y - v.y * w.x

/-- `Vec2::dot` exactly as written in the source:
`self.x * w.x + self.y + w.y` (note: the second product is missing there). -/
def Vec2.dot (v w : Vec2) : ℚ := v.x * w.x + v.y + w.y

/-- `Vec2::add`. -/
def Vec2.add (v w : Vec2) : Vec2 := ⟨v.x + w.x, v.y + w.y⟩

/-- `Vec2::subtract`. -/
def Vec2.subtract (v w : Vec2) : Vec2 := ⟨v.x - w.x, v.y - w.y⟩

/-- `Vec2::scale`. -/
def Vec2.scale (v : Vec2) (k : ℚ) : Vec2 := ⟨v.x * k, v.y * k⟩

/-- `collision.rs` free function `check_collision(segment_a, segment_b)`.
In Rust `t` and `u` are computed before the branch; with `rs = 0` they are
`NaN`/`inf` but are only read in the branch that has `rs ≠ 0`, so the exact
rational division (with `q / 0 = 0`) is observationally identical. -/
def check_collision (segment_a segment_b : Vec2 × Vec2) : Option Vec2 :=
  let p := segment_a.1
  let p1 := segment_a.2
  let r := p1.subtract p
  let q := segment_b.1
  let q1 := segment_b.2
  let s := q1.subtract q
  let rs := r.cross s
  let q_p := q.subtract p
  let qpr := q_p.cross r
  let t := q_p.cross s / rs
  let u := q_p.cross r / rs
  if rs = 0 ∧ qpr = 0 then
    -- collinear: check if overlapping (uses the `Vec2.dot` above)
    let rr := r.dot r
    let t0 := q_p.dot r / rr
    let t1 := t0 + s.dot r / rr
    let t0t1 := if t0 < t1 then (t0, t1) else (t1, t0)
    if t0t1.1 > 1 ∨ t0t1.2 < 0 then none else some ⟨q.x, q.y⟩
  else if rs = 0 ∧ qpr ≠ 0 then none
  else if rs ≠ 0 ∧ (0 ≤ t ∧ t ≤ 1) ∧ (0 ≤ u ∧ u ≤ 1) then
    some (p.add (r.scale t))
  else none

/-- A point of the plane lies on a segment (standard parametric membership;
used only to state, against `check_collision`, what "the two segments are
disjoint" means geometrically). -/
def onSegment (s : Vec2 × Vec2) (v : Vec2) : Prop :=
  ∃ τ : ℚ, 0 ≤ τ ∧ τ ≤ 1 ∧ v = s.1.add ((s.2.subtract s.1).scale τ)

section SolverDefs

/-- `solver.rs` `clamp(v, range)` = `*range.start().max(range.end().min(&v))`. -/
def clampR (v lo hi : ℤ) : ℤ := max lo (min hi v)

/-- `f64::round` rounds half away from zero (Mathlib's `round` rounds half
up, so the negative case is mirrored). -/
def rustRound (q : ℚ) : ℤ := if q < 0 then -round (-q) else round q

/-- `solver.rs` `accumulated(initial_value, i, clamp)`: a scan whose state is
`value = clamp(value + o)`, emitted at every step. -/
def accumulated (clampF : ℤ → ℤ) : ℤ → List ℤ → List ℤ
  | _, [] => []
  | value, o :: rest =>
    let value' := clampF (value + o)
    value' :: accumulated clampF value' rest

/-- `solver.rs` `struct Chromosome`. -/
structure Chromosome where
  angles : List ℤ
  thrusts : List ℤ
deriving DecidableEq, Repr

/-- `solver.rs` `crossed(a, b, i, clamp)`. -/
def crossed (a b : List ℤ) (i : ℚ) (cl : ℤ → ℤ) :
    Except String (List ℤ × List ℤ) :=
  if a.length ≠ b.length then .error "a.len() != b.len()"
  else if ¬ (0 ≤ i ∧ i ≤ 1) then .error "i out of range [0,1]"
  else
    .ok ((a.zip b).foldl
      (fun (xy : List ℤ × List ℤ) ab =>
        let av : ℚ := (ab.1 : ℚ)
        let bv : ℚ := (ab.2 : ℚ)
        let xp := rustRound (i * av + (1 - i) * bv)
        let yp := rustRound (i * bv + (1 - i) * av)
        (xy.1 ++ [cl xp], xy.2 ++ [cl yp]))
      ([], []))

/-- `Chromosome::crossover(other, cross_point)`; angle deltas are clamped to
`[-15, 15]`, thrust deltas to `[-1, 1]` (`ANGLE_STEP_RANGE`,
`THRUST_STEP_RANGE`). -/
def Chromosome.crossover (a b : Chromosome) (cross_point : ℚ) :
    Except String (Chromosome × Chromosome) :=
  match crossed a.angles b.angles cross_point (fun v => clampR v (-15) 15) with
  | .error e => .error e
  | .ok angs =>
    match crossed a.thrusts b.thrusts cross_point (fun v => clampR v (-1) 1) with
    | .error e => .error e
    | .ok thrs => .ok (⟨angs.1, thrs.1⟩, ⟨angs.2, thrs.2⟩)

/-- `Chromosome::mutate(mutation_prob)` with the random draws supplied by an
oracle: `o k = some (fa, ft)` when the probability check fires at gene pair
`k` (with `fa`, `ft` the fresh draws), `none` otherwise.  The Rust code zips
the two gene vectors, so only indices below the shorter length mutate. -/
def Chromosome.mutateO (o : ℕ → Option (ℤ × ℤ)) (c : Chromosome) : Chromosome :=
  let n := min c.angles.length c.thrusts.length
  { angles := c.angles.mapIdx fun k a =>
      if k < n then
        match o k with
        | some fa => clampR fa.1 (-15) 15
        | none => a
      else a
    thrusts := c.thrusts.mapIdx fun k t =>
      if k < n then
        match o k with
        | some fa => clampR fa.2 (-1) 1
        | none => t
      else t }

/-- One iteration's random draws inside `Solver::mate`: the two indices
chosen by `choose_multiple`, the crossover point, and the two children's
mutation draws. -/
structure MateRand where
  i1 : ℕ
  i2 : ℕ
  cross : ℚ
  mut1 : ℕ → Option (ℤ × ℤ)
  mut2 : ℕ → Option (ℤ × ℤ)

/-- The `try_fold` inside `Solver::mate`, one step per element of
`0..n_children/2`. -/
def mateAux (parents : List Chromosome) (R : ℕ → MateRand) :
    List ℕ → List Chromosome → Except String (List Chromosome)
  | [], acc => .ok acc
  | j :: js, acc =>
    match parents[(R j).i1]?, parents[(R j).i2]? with
    | some p1, some p2 =>
      match p1.crossover p2 (R j).cross with
      | .error e => .error e
      | .ok c => mateAux parents R js
        (acc ++ [c.1.mutateO (R j).mut1, c.2.mutateO (R j).mut2])
    | _, _ => .error "Cant get parent"

/-- `Solver::mate(parents, n_children)`. -/
def mate (parents : List Chromosome) (n_children : ℕ) (R : ℕ → MateRand) :
    Except String (List Chromosome) :=
  mateAux parents R (List.range (n_children / 2)) []

/-- `Solver::choose_parents(fitness)`: stable sort of `(chromosome, fitness)`
by descending fitness, keep the first `(elitism * population.len()) as usize`
entries.  `f64 as usize` truncates, i.e. floors for the nonnegative
elitism values admitted by `Solver::try_new`. -/
def chooseParents (population : List Chromosome) (fitness : List ℚ)
    (elitism : ℚ) : List Chromosome :=
  let ranking := (population.zip fitness).mergeSort
    (fun a b => decide (b.2 ≤ a.2))
  let n_best := (⌊elitism * (population.length : ℚ)⌋).toNat
  (ranking.take n_best).map Prod.fst

/-- `Solver::accumulated_population`: the angle deltas accumulate from
`initial_angle` with running clamp to `ANGLE_RANGE = [-90, 90]`, the thrust
deltas from `initial_thrust` with running clamp to `THRUST_RANGE = [0, 4]`
(a fold pushing one accumulated chromosome per input chromosome). -/
def accumulatedPopulation (initial_angle initial_thrust : ℤ)
    (population : List Chromosome) : List Chromosome :=
  population.foldl
    (fun acc c =>
      acc ++ [{ angles := accumulated (fun v => clampR v (-90) 90) initial_angle c.angles
                thrusts := accumulated (fun v => clampR v 0 4) initial_thrust c.thrusts }])
    []

/-- The `Solver` struct's fields (`solver.rs`). -/
structure Solver where
  population : List Chromosome
  elitism : ℚ
  mutation_prob : ℚ
  initial_angle : ℤ
  initial_thrust : ℤ
  accumulated_population : List Chromosome

/-- `Solver::new_generation(fitness)`: children from `mate` (bred from the
whole current population), then the retained elites appended verbatim, then
the accumulation cache refreshed. -/
def Solver.newGeneration (s : Solver) (fitness : List ℚ) (R : ℕ → MateRand) :
    Except String Solver :=
  let lenBefore := s.population.length
  let parents := chooseParents s.population fitness s.elitism
  let n_children := lenBefore - parents.length
  match mate s.population n_children R with
  | .error e => .error e
  | .ok new_pop =>
    let pop := new_pop ++ parents
    .ok { s with
          population := pop
          accumulated_population :=
            accumulatedPopulation s.initial_angle s.initial_thrust pop }

end SolverDefs

section FitnessDefs

/-- `Landing` outcome (`collision.rs`), parametric in the scalar so that the
collision checker can carry exact real distances while the fitness
calculator works on rationals. -/
inductive Landing (α : Type) where
  | correct : Landing α
  | wrongTerrain (dist : α) : Landing α
  | notVertical (error_abs : α) : Landing α
  | tooFastVertical (error_abs : α) : Landing α
  | tooFastHorizontal (error_abs : α) : Landing α
deriving DecidableEq, Repr

/-- `some_or_max` closure in `FitnessCalculator::calculate_fitness`. -/
def someOrMax (a : Option ℚ) (er : ℚ) : Option ℚ :=
  some (a.elim er fun v => max v er)

/-- `dist_points` closure: least absolute difference to either precomputed
target distance. -/
def distPoints (target : ℚ × ℚ) (dist : ℚ) : ℚ :=
  min |target.1 - dist| |target.2 - dist|

/-- The accumulator step of the `(err_max, dist_max)` fold in
`calculate_fitness` (an anonymous closure in the source, named here so the
fold can be reasoned about). -/
def fitnessMaxStep (target : ℚ × ℚ) (m : Option ℚ × Option ℚ)
    (l : Landing ℚ) : Option ℚ × Option ℚ :=
  match l with
  | .notVertical e => (someOrMax m.1 e, m.2)
  | .tooFastHorizontal e => (someOrMax m.1 e, m.2)
  | .tooFastVertical e => (someOrMax m.1 e, m.2)
  | .wrongTerrain d => (m.1, someOrMax m.2 (distPoints target d))
  | .correct => m

/-- `FitnessCalculator::calculate_fitness(landing_results)`.  The Rust code
reads the non-`Correct` payload field (written `error_rel` there against a
`Landing` type declaring `error_abs`; the embedding reads the variant's
single payload).  `Option::unwrap` of the maxima is modelled by `getD 0`;
the `none` case would panic in Rust and is unreachable because a variant
only reaches the `map` when the fold saw that same variant kind. -/
def calculateFitness (target : ℚ × ℚ) (landing_bias : ℚ)
    (landing_results : List (Landing ℚ)) : Option (List ℚ) :=
  let maxes := landing_results.foldl (fitnessMaxStep target) (none, none)
  some (landing_results.map fun result =>
    match result with
    | .correct => 1
    | .notVertical e => landing_bias + (1 - landing_bias) * e / (maxes.1.getD 0)
    | .tooFastHorizontal e => landing_bias + (1 - landing_bias) * e / (maxes.1.getD 0)
    | .tooFastVertical e => landing_bias + (1 - landing_bias) * e / (maxes.1.getD 0)
    | .wrongTerrain d => (1 - distPoints target d / (maxes.2.getD 0)) * landing_bias)

/-- The payload used by the error-maximum fold for the three near-miss
kinds (spec-side selector, for stating the refinement). -/
def errOf : Landing ℚ → Option ℚ
  | .notVertical e => some e
  | .tooFastHorizontal e => some e
  | .tooFastVertical e => some e
  | _ => none

/-- The payload used by the distance-maximum fold for `WrongTerrain`
(spec-side selector, for stating the refinement). -/
def dpOf (target : ℚ × ℚ) : Landing ℚ → Option ℚ
  | .wrongTerrain d => some (distPoints target d)
  | _ => none

/-- Folding `someOrMax` over a list from a starting accumulator. -/
def optFoldMax (a : Option ℚ) (l : List ℚ) : Option ℚ := l.foldl someOrMax a

/-- The fitness formula the specification claims (§4.5): per-kind
min–max-normalized error combined multiplicatively with a landing-kind base
score.  Written from the spec's words, to be compared with
`calculateFitness`. -/
def specFitnessC2 (landing_results : List (Landing ℚ)) : List ℚ :=
  let errsOfKind : (Landing ℚ → Option ℚ) → List ℚ := fun sel =>
    landing_results.filterMap sel
  let normalized : ℚ → List ℚ → ℚ := fun e errs =>
    let mn := errs.foldr min e
    let mx := errs.foldr max e
    if mx = mn then 0 else (e - mn) / (mx - mn)
  landing_results.map fun result =>
    match result with
    | .correct => 1
    | .notVertical e =>
      (1 - normalized e (errsOfKind fun l =>
        match l with | .notVertical x => some x | _ => none)) * (9/10)
    | .tooFastVertical e =>
      (1 - normalized e (errsOfKind fun l =>
        match l with | .tooFastVertical x => some x | _ => none)) * (7/10)
    | .tooFastHorizontal e =>
      (1 - normalized e (errsOfKind fun l =>
        match l with | .tooFastHorizontal x => some x | _ => none)) * (5/10)
    | .wrongTerrain d =>
      (1 - normalized d (errsOfKind fun l =>
        match l with | .wrongTerrain x => some x | _ => none)) * (3/10)

end FitnessDefs

section PhysicsDefs

/-- `physics.rs` `struct Thrust` (also the `Command` fed by the runner):
`angle: f64` (here exact ℚ), `power: i32`. -/
structure Thrust where
  angle : ℚ
  power : ℤ
deriving DecidableEq, Repr

/-- `physics.rs` `struct LanderState`, parametric in the scalar of the
kinematic fields: the collision checker only ever compares them (ℚ),
while the integrator makes them trigonometric expressions (ℝ).  `angle`
stays rational in both: it is only ever stepped by rational clamps. -/
structure LanderState (α : Type) where
  x : α
  y : α
  vx : α
  vy : α
  fuel : ℤ
  angle : ℚ
  power : ℤ

/-- `physics.rs` `SimulationError`. -/
inductive SimulationError where
  | invalidThrust (t : Thrust) : SimulationError
deriving DecidableEq, Repr

/-- `physics.rs` `struct Physics`. -/
structure Physics where
  g : ℝ
  dt : ℝ
  power_step : ℤ
  angle_step : ℚ
  power_max : ℤ
  angle_limit : ℚ

/-- `Physics::default()` with the `defaults` constants of `physics.rs`:
`G = 3.711`, `DT = 1`, `POWER_STEP = 1`, `ANGLE_STEP = 15`,
`POWER_MAX = 4`, `ANGLE_LIMIT = 90`. -/
def defaultPhysics : Physics :=
  { g := 3.711, dt := 1, power_step := 1, angle_step := 15
    power_max := 4, angle_limit := 90 }

/-- `Physics::validate_thrust`. -/
def Physics.validateThrust (ph : Physics) (thrust : Thrust) : Prop :=
  |thrust.angle| ≤ ph.angle_limit ∧ thrust.power ≤ ph.power_max ∧ 0 ≤ thrust.power

instance (ph : Physics) (t : Thrust) : Decidable (ph.validateThrust t) := by
  unfold Physics.validateThrust; infer_instance

/-- The generic `clamp` of `physics.rs` (asserting `lower < upper`, which
holds at both call sites since the steps are positive). -/
def clampP {α : Type} [LinearOrder α] (value lower upper : α) : α :=
  if value < lower then lower else if value > upper then upper else value

/-- `Thrust::into_vector`: `θ = (angle + 90).to_radians()`,
components `(cos θ · power, sin θ · power)`. -/
noncomputable def thrustVector (angle : ℚ) (power : ℤ) : ℝ × ℝ :=
  let θ : ℝ := ((angle : ℝ) + 90) * Real.pi / 180
  (Real.cos θ * (power : ℝ), Real.sin θ * (power : ℝ))

/-- `Physics::iterate(lander, cmd)`, statement for statement:
validate; track the commanded thrust (or cut power when out of fuel);
vectorize the updated thrust; integrate position then velocity; consume
fuel by the updated power, flooring at 0. -/
noncomputable def Physics.iterate (ph : Physics) (lander : LanderState ℝ)
    (cmd : Thrust) : Except SimulationError (LanderState ℝ) :=
  if ¬ ph.validateThrust cmd then .error (.invalidThrust cmd)
  else
    let pa : ℤ × ℚ :=
      if lander.fuel > cmd.power then
        (lander.power + clampP (cmd.power - lander.power) (-ph.power_step) ph.power_step,
         lander.angle + clampP (cmd.angle - lander.angle) (-ph.angle_step) ph.angle_step)
      else
        (0, lander.angle)
    let t := thrustVector pa.2 pa.1
    let x' := lander.x + lander.vx * ph.dt + t.1 / 2 * ph.dt ^ 2
    let y' := lander.y + lander.vy * ph.dt + (t.2 - ph.g) / 2 * ph.dt ^ 2
    let vx' := lander.vx + t.1 * ph.dt
    let vy' := lander.vy + (t.2 - ph.g) * ph.dt
    let fuel' := lander.fuel - pa.1
    .ok { x := x', y := y', vx := vx', vy := vy'
          fuel := if fuel' < 0 then 0 else fuel'
          angle := pa.2, power := pa.1 }

/-- "Step `a` toward `b` by at most `st`" (spec-side formulation used in the
claims about control tracking). -/
def stepToward {α : Type} [LinearOrder α] [Add α] [Sub α] (a b st : α) : α :=
  if a ≤ b then min b (a + st) else max b (a - st)

end PhysicsDefs

section CollisionDefs

/-- `collision.rs` `struct Terrain`: bounding box plus the polyline given as
two coordinate sequences. -/
structure Terrain where
  max_x : ℚ
  max_y : ℚ
  xs : List ℚ
  ys : List ℚ

/-- `Terrain::iter_points`: zip of the coordinate sequences. -/
def Terrain.points (t : Terrain) : List Vec2 :=
  (t.xs.zip t.ys).map fun p => ⟨p.1, p.2⟩

/-- Consecutive pairs of a point list, starting from `prev`
(the iteration pattern of `MapIterator`). -/
def polySegs (prev : Vec2) : List Vec2 → List (Vec2 × Vec2)
  | [] => []
  | p :: ps => (prev, p) :: polySegs p ps

/-- `Terrain::iter_segments` via `MapIterator::new`: the polyline points,
then `(max_x, max_y)` and `(0, max_y)` chained, paired off starting from
the previous point `(0, max_y)` — the closed map polygon (ground, right
wall, ceiling, left wall). -/
def Terrain.mapSegments (t : Terrain) : List (Vec2 × Vec2) :=
  polySegs ⟨0, t.max_y⟩ (t.points ++ [⟨t.max_x, t.max_y⟩, ⟨0, t.max_y⟩])

/-- The polyline's own segments (no walls, no ceiling); used to state the
claims' talk of "consecutive pairs of polyline points". -/
def Terrain.polylineSegs (t : Terrain) : List (Vec2 × Vec2) :=
  match t.points with
  | [] => []
  | p :: ps => polySegs p ps

/-- `collision.rs` `distance(a, b) = (a.x - b.x).hypot(a.y - b.y)`. -/
noncomputable def distance (a b : Vec2) : ℝ :=
  Real.sqrt (((a.x - b.x) ^ 2 + (a.y - b.y) ^ 2 : ℚ) : ℝ)

/-- `collision.rs` `struct CollisionChecker`. -/
structure CollisionChecker where
  max_vertical_speed : ℚ
  max_horizontal_speed : ℚ
  angle_step : ℚ
  target : ℝ × ℝ
  terrain : Terrain

/-- The loop of `CollisionChecker::target_from_terrain`: walk the closed
polygon accumulating distance; at the first segment whose endpoints share a
y, return the accumulated distance to its start and to its end. -/
noncomputable def targetLoop : List (Vec2 × Vec2) → ℝ → Option (ℝ × ℝ)
  | [], _ => none
  | (p1, p2) :: rest, dist =>
    let new_dist := distance p1 p2
    if p1.y = p2.y then some (dist, dist + new_dist)
    else targetLoop rest (dist + new_dist)

/-- `CollisionChecker::target_from_terrain(terrain)`. -/
noncomputable def targetFromTerrain (t : Terrain) : Option (ℝ × ℝ) :=
  targetLoop t.mapSegments 0

/-- `CollisionChecker::try_new`. -/
noncomputable def CollisionChecker.tryNew (max_vertical_speed
    max_horizontal_speed angle_step : ℚ) (terrain : Terrain) :
    Option CollisionChecker :=
  match targetFromTerrain terrain with
  | none => none
  | some tgt => some
      { max_vertical_speed, max_horizontal_speed, angle_step
        target := tgt, terrain }

/-- `CollisionChecker::try_with_default_limits`: `try_new` with the default
limits `MAX_VERTICAL_SPEED = 40`, `MAX_HORIZONTAL_SPEED = 20`,
`ANGLE_STEP = 15`. -/
noncomputable def CollisionChecker.tryWithDefaultLimits (terrain : Terrain) :
    Option CollisionChecker :=
  CollisionChecker.tryNew 40 20 15 terrain

/-- `dist_from_target` closure inside `CollisionChecker::check`. -/
noncomputable def CollisionChecker.distFromTarget (cc : CollisionChecker)
    (dist : ℝ) : ℝ :=
  min |cc.target.1 - dist| |cc.target.2 - dist|

/-- The loop of `CollisionChecker::check`: test the lander path against
each polygon segment; on the first hit classify (non-flat terrain, then
ceiling, then the speed/angle priority chain on the current state),
otherwise accumulate the segment length and continue. -/
noncomputable def CollisionChecker.checkLoop (cc : CollisionChecker)
    (cur : LanderState ℚ) (path : Vec2 × Vec2) :
    List (Vec2 × Vec2) → ℝ → Option ((ℚ × ℚ) × Landing ℝ)
  | [], _ => none
  | seg :: rest, dist =>
    match check_collision seg path with
    | some cp =>
      let dfd := cc.distFromTarget (dist + distance seg.1 cp)
      some ((cp.x, cp.y),
        if seg.1.y ≠ seg.2.y then .wrongTerrain dfd
        else if seg.1.y ≥ cc.terrain.max_y then .wrongTerrain dfd
        else if |cur.vx| > cc.max_horizontal_speed then
          .tooFastHorizontal ((|cur.vx| - cc.max_horizontal_speed : ℚ) : ℝ)
        else if |cur.vy| > cc.max_vertical_speed then
          .tooFastVertical ((|cur.vy| - cc.max_vertical_speed : ℚ) : ℝ)
        else if cur.angle ≠ 0 then
          .notVertical ((|cur.angle| : ℚ) : ℝ)
        else .correct)
    | none => cc.checkLoop cur path rest (dist + distance seg.1 seg.2)

/-- `CollisionChecker::check(previous_state, current_state)`. -/
noncomputable def CollisionChecker.check (cc : CollisionChecker)
    (previous_state current_state : LanderState ℚ) :
    Option ((ℚ × ℚ) × Landing ℝ) :=
  cc.checkLoop current_state
    (⟨previous_state.x, previous_state.y⟩, ⟨current_state.x, current_state.y⟩)
    cc.terrain.mapSegments 0

/-- Sum of the lengths of a list of segments (for stating prefix distance). -/
noncomputable def segsLen (segs : List (Vec2 × Vec2)) : ℝ :=
  (segs.map fun s => distance s.1 s.2).sum

end CollisionDefs

section ConcreteInputs

/-- The test terrain of spec §8: polyline `[0,200]-[2000,100]-[4000,100]-
[7000,150]` in a `7000 × 3000` map (the y of the first point is `200` in the
source's `collision_checker_tests::terrain`). -/
def terrain8 : Terrain := ⟨7000, 3000, [0, 2000, 4000, 7000], [200, 100, 100, 150]⟩

/-- Previous state `(1, 700)` of the `out_of_map1` scenario. -/
def prev1 : LanderState ℚ := ⟨1, 700, 0, 0, 0, 0, 0⟩

/-- Current state `(-5, 700)` of the `out_of_map1` scenario. -/
def cur1 : LanderState ℚ := ⟨-5, 700, 0, 0, 0, 0, 0⟩

/-- A terrain whose polyline `[0,0]-[4000,3000]` has no consecutive pair of
points with equal y. -/
def terrainNoFlat : Terrain := ⟨7000, 3000, [0, 4000], [0, 3000]⟩

/-- A terrain that is one flat pad `[0,0]-[10,0]`. -/
def terrainPad : Terrain := ⟨7000, 3000, [0, 10], [0, 0]⟩

/-- A collision checker over `terrainPad` with the default speed limits. -/
noncomputable def ccPad : CollisionChecker := ⟨40, 20, 15, (0, 0), terrainPad⟩

/-- A state just above the pad. -/
def prevPad : LanderState ℚ := ⟨5, 1, 0, 0, 0, 0, 0⟩

/-- A state just below the pad, too fast and tilted
(`vx = -30`, `vy = -45`, `angle = 40`). -/
def curPad : LanderState ℚ := ⟨5, -1, -30, -45, 0, 40, 0⟩

/-- A chromosome with an empty gene sequence. -/
def chromo0 : Chromosome := ⟨[], []⟩

/-- A fixed draw for `Solver::mate`: parents 0 and 1, crossover point 1,
no mutation. -/
def mateRand0 : MateRand := ⟨0, 1, 1, fun _ => none, fun _ => none⟩

/-- A solver holding three chromosomes with `elitism = 0`. -/
def solver3 : Solver := ⟨[chromo0, chromo0, chromo0], 0, 0, 0, 0, []⟩

/-- A solver holding one chromosome with `elitism = 0`. -/
def solver1 : Solver := ⟨[chromo0], 0, 0, 0, 0, []⟩

/-- A concrete lander state for the physics witnesses. -/
noncomputable def landerW : LanderState ℝ := ⟨0, 500, 0, 0, 100, 0, 0⟩

/-- The commanded thrust of the source's `clamping` test: angle 16, power 2. -/
def cmdW : Thrust := ⟨16, 2⟩

end ConcreteInputs

section HelperLemmas

/-- Index/recurrence form of `accumulated`: the `k`-th emitted value is the
clamp of the previous emitted value (the initial value for `k = 0`) plus the
`k`-th delta. -/
theorem accumulated_getD (f : ℤ → ℤ) :
    ∀ (l : List ℤ) (init : ℤ) (k : ℕ), k < l.length →
      (accumulated f init l).getD k 0 =
        f ((if k = 0 then init else (accumulated f init l).getD (k - 1) 0) +
           l.getD k 0)
  | [], _, k, h => absurd h (by simp)
  | d :: ds, init, 0, _ => by simp [accumulated]
  | d :: ds, init, k + 1, h => by
    have ih := accumulated_getD f ds (f (init + d)) k (by simpa using h)
    cases k with
    | zero => simpa [accumulated] using ih
    | succ j => simpa [accumulated] using ih

/-- A fold that appends one image per element is a map. -/
theorem foldl_push_eq_map {α β : Type} (g : α → β) :
    ∀ (l : List α) (acc : List β),
      l.foldl (fun a c => a ++ [g c]) acc = acc ++ l.map g
  | [], acc => by simp
  | c :: cs, acc => by
    rw [List.foldl_cons, foldl_push_eq_map g cs]
    simp

/-- `accumulated_population` maps each chromosome to its accumulated form
(angles clamped to `[-90, 90]`, thrusts to `[0, 4]`). -/
theorem accPop_eq_map (ia it : ℤ) (pop : List Chromosome) :
    accumulatedPopulation ia it pop = pop.map fun c =>
      { angles := accumulated (fun v => clampR v (-90) 90) ia c.angles
        thrusts := accumulated (fun v => clampR v 0 4) it c.thrusts } := by
  unfold accumulatedPopulation
  rw [foldl_push_eq_map]
  simp

/-- `clampR` output bounds. -/
theorem clampR_bounds (v lo hi : ℤ) (h : lo ≤ hi) :
    lo ≤ clampR v lo hi ∧ clampR v lo hi ≤ hi :=
  ⟨le_max_left _ _, max_le h (min_le_left _ _)⟩

/-- Every value emitted by `accumulated` with a clamped step stays in the
clamp range. -/
theorem accumulated_mem_bounds (lo hi : ℤ) (h : lo ≤ hi) :
    ∀ (l : List ℤ) (init x : ℤ),
      x ∈ accumulated (fun v => clampR v lo hi) init l → lo ≤ x ∧ x ≤ hi
  | [], _, x, hx => absurd hx (by simp [accumulated])
  | d :: ds, init, x, hx => by
    rw [accumulated] at hx
    rcases List.mem_cons.1 hx with rfl | hx
    · exact clampR_bounds _ _ _ h
    · exact accumulated_mem_bounds lo hi h ds _ x hx

/-- A successful `mateAux` run appends exactly two children per pending
iteration. -/
theorem mateAux_ok_length (parents : List Chromosome) (R : ℕ → MateRand) :
    ∀ (js : List ℕ) (acc out : List Chromosome),
      mateAux parents R js acc = .ok out → out.length = acc.length + 2 * js.length
  | [], acc, out, hok => by
    rw [mateAux] at hok
    cases hok
    simp
  | j :: js, acc, out, hok => by
    rw [mateAux] at hok
    split at hok
    · split at hok
      · simp at hok
      · have h := mateAux_ok_length parents R js _ out hok
        simp only [List.length_append, List.length_cons, List.length_nil] at h ⊢
        omega
    · simp at hok

/-- A successful `mate` produces exactly `2 * (n_children / 2)` children. -/
theorem mate_ok_length (parents : List Chromosome) (n : ℕ) (R : ℕ → MateRand)
    (out : List Chromosome) (hok : mate parents n R = .ok out) :
    out.length = 2 * (n / 2) := by
  have := mateAux_ok_length parents R (List.range (n / 2)) [] out hok
  simpa [Nat.mul_comm] using this

/-- With `elitism = 0` no parents are retained. -/
theorem chooseParents_zero (pop : List Chromosome) (fit : List ℚ) :
    chooseParents pop fit 0 = [] := by
  unfold chooseParents
  simp

end HelperLemmas

section ClaimSolverTheorems

/-- **C9** (confirmed).  Accumulation is a running sum clamped at every step:
`accumulated[0] = clamp(initial + delta[0])` and
`accumulated[k] = clamp(accumulated[k-1] + delta[k])`, so saturation is
sticky; `accumulated_population` applies this with angles clamped to
`[-90, 90]` and thrusts to `[0, 4]`; and deltas `[1,1,1,1]` with initial
value 3 under upper clamp 6 accumulate to `[4,5,6,6]`. -/
theorem c9_accumulation_sticky_clamp :
    (∀ (f : ℤ → ℤ) (l : List ℤ) (init : ℤ) (k : ℕ), k < l.length →
      (accumulated f init l).getD k 0 =
        f ((if k = 0 then init else (accumulated f init l).getD (k - 1) 0) +
           l.getD k 0)) ∧
    (∀ (ia it : ℤ) (pop : List Chromosome),
      accumulatedPopulation ia it pop = pop.map fun c =>
        { angles := accumulated (fun v => clampR v (-90) 90) ia c.angles
          thrusts := accumulated (fun v => clampR v 0 4) it c.thrusts }) ∧
    accumulated (fun x => min x 6) 3 [1, 1, 1, 1] = [4, 5, 6, 6] :=
  ⟨accumulated_getD, accPop_eq_map, by decide⟩

/-- Witness for C9 at `k = 2` of the `[1,1,1,1]`, initial 3, clamp-max 6
accumulation. -/
theorem c9_witness :
    2 < ([1, 1, 1, 1] : List ℤ).length ∧
    (accumulated (fun x => min x 6) 3 [1, 1, 1, 1]).getD 2 0 =
      min ((if 2 = 0 then (3 : ℤ)
            else (accumulated (fun x => min x 6) 3 [1, 1, 1, 1]).getD (2 - 1) 0) +
           ([1, 1, 1, 1] : List ℤ).getD 2 0) 6 :=
  ⟨by decide, c9_accumulation_sticky_clamp.1 (fun x => min x 6) [1, 1, 1, 1] 3 2 (by decide)⟩

/-- **C5** (code_bug).  `check_collision` reports a hit for two collinear
**disjoint** vertical segments: the typo in `Vec2::dot`
(`x*wx + y + wy` instead of `x*wx + y*wy`) breaks the collinear overlap
projection, contradicting the code's own comments (`// collinear, disjoint`)
and the referenced algorithm.  The two segments share no point. -/
theorem c5_collinear_disjoint_reports_hit :
    check_collision (⟨0, 0⟩, ⟨0, 1⟩) (⟨0, -3⟩, ⟨0, -1⟩) = some ⟨0, -3⟩ ∧
    ∀ v : Vec2, ¬ (onSegment (⟨0, 0⟩, ⟨0, 1⟩) v ∧ onSegment (⟨0, -3⟩, ⟨0, -1⟩) v) := by
  constructor
  · simp only [check_collision, Vec2.cross, Vec2.dot, Vec2.add, Vec2.subtract, Vec2.scale]
    norm_num
  · rintro v ⟨⟨t1, ht10, ht11, rfl⟩, ⟨t2, ht20, ht21, heq⟩⟩
    have hy := congrArg Vec2.y heq
    simp [Vec2.add, Vec2.subtract, Vec2.scale] at hy
    linarith

/-- **C7** (confirmed).  `Physics::iterate` fails — with `InvalidThrust`
carrying the offending command, producing no successor state and leaving the
input untouched (the embedding is a pure function of the input) — precisely
when `|angle| > 90`, `power < 0`, or `power > 4`. -/
theorem c7_invalid_thrust_iff (s : LanderState ℝ) (c : Thrust) :
    defaultPhysics.iterate s c = .error (.invalidThrust c) ↔
      (|c.angle| > 90 ∨ c.power < 0 ∨ c.power > 4) := by
  unfold Physics.iterate
  by_cases h : defaultPhysics.validateThrust c
  · rw [if_neg (not_not_intro h)]
    obtain ⟨h1, h2, h3⟩ := h
    constructor
    · intro hbad
      exact Except.noConfusion hbad
    · rintro (hb | hb | hb)
      · exact absurd h1 (not_le.2 hb)
      · exact absurd h3 (not_le.2 hb)
      · exact absurd h2 (not_le.2 hb)
  · rw [if_pos h]
    refine iff_of_true rfl ?_
    rcases not_and_or.1 h with h' | h'
    · exact Or.inl (not_le.1 h')
    · rcases not_and_or.1 h' with h'' | h''
      · exact Or.inr (Or.inr (not_le.1 h''))
      · exact Or.inr (Or.inl (not_le.1 h''))

end ClaimSolverTheorems

section FitnessLemmas

/-- `optFoldMax` started with `some v` computes a plain running maximum. -/
theorem optFoldMax_some (v : ℚ) :
    ∀ l : List ℚ, optFoldMax (some v) l = some (l.foldl max v)
  | [] => rfl
  | x :: xs => by
    show optFoldMax (someOrMax (some v) x) xs = _
    rw [show someOrMax (some v) x = some (max v x) from rfl, optFoldMax_some (max v x) xs]
    rfl

/-- `optFoldMax` started from `none` is `List.max?`. -/
theorem optFoldMax_none_eq_max? :
    ∀ l : List ℚ, optFoldMax none l = l.max?
  | [] => rfl
  | x :: xs => by
    show optFoldMax (someOrMax none x) xs = _
    rw [show someOrMax none x = some x from rfl, optFoldMax_some x xs]
    rfl

/-- The `(err_max, dist_max)` fold splits into the two per-channel maxima. -/
theorem foldl_fitnessMaxStep (target : ℚ × ℚ) :
    ∀ (rs : List (Landing ℚ)) (m : Option ℚ × Option ℚ),
      rs.foldl (fitnessMaxStep target) m =
        (optFoldMax m.1 (rs.filterMap errOf), optFoldMax m.2 (rs.filterMap (dpOf target)))
  | [], m => by simp [optFoldMax]
  | l :: ls, m => by
    rw [List.foldl_cons, foldl_fitnessMaxStep target ls]
    cases l <;>
      simp [fitnessMaxStep, errOf, dpOf, optFoldMax, List.filterMap_cons]

end FitnessLemmas

section ClaimFitnessTheorems

/-- **C2 counterexample.**  `calculate_fitness` (with target `(0,0)` and
`landing_bias = 1/2`) maps the single outcome `TooFastHorizontal 10` to 1,
whereas the claimed kind-score/min–max formula yields `0.5`: the claimed
formula is not the implemented one. -/
theorem c2_counterexample :
    calculateFitness (0, 0) (1/2) [.tooFastHorizontal 10] = some [1] ∧
    specFitnessC2 [.tooFastHorizontal 10] = [1/2] ∧ (1 : ℚ) ≠ 1/2 := by
  refine ⟨?_, ?_, by norm_num⟩
  · simp only [calculateFitness, List.foldl_cons, List.foldl_nil, fitnessMaxStep,
      someOrMax, Option.elim, List.map_cons, List.map_nil, Option.getD_some]
    norm_num
  · simp only [specFitnessC2, List.map_cons, List.map_nil, List.filterMap_cons,
      List.filterMap_nil, List.foldr_cons, List.foldr_nil]
    norm_num

/-- **C2** (corrected).  What `calculate_fitness` actually returns, for every
input: `Correct ↦ 1`; the three near-miss kinds with error `e` map to
`landing_bias + (1 - landing_bias) · e / E` where `E` is the maximum error
pooled across all three kinds (not per kind, no minimum, increasing in `e`);
`WrongTerrain` with `dist d` maps to `(1 - dp(d)/D) · landing_bias` where
`dp(d) = min(|target₀ - d|, |target₁ - d|)` and `D` is the maximum `dp` over
the `WrongTerrain` outcomes.  No landing-kind base scores
0.9/0.7/0.5/0.3 and no `(err - min)/(max - min)` normalization occur. -/
theorem c2_amended_fitness (target : ℚ × ℚ) (landing_bias : ℚ)
    (rs : List (Landing ℚ)) :
    calculateFitness target landing_bias rs = some (rs.map fun result =>
      match result with
      | .correct => 1
      | .notVertical e =>
        landing_bias + (1 - landing_bias) * e / ((rs.filterMap errOf).max?.getD 0)
      | .tooFastHorizontal e =>
        landing_bias + (1 - landing_bias) * e / ((rs.filterMap errOf).max?.getD 0)
      | .tooFastVertical e =>
        landing_bias + (1 - landing_bias) * e / ((rs.filterMap errOf).max?.getD 0)
      | .wrongTerrain d =>
        (1 - distPoints target d / ((rs.filterMap (dpOf target)).max?.getD 0)) *
          landing_bias) := by
  unfold calculateFitness
  rw [foldl_fitnessMaxStep, optFoldMax_none_eq_max?, optFoldMax_none_eq_max?]

end ClaimFitnessTheorems

section ClaimGenerationTheorems

/-- **C4** (code_bug).  `new_generation` does **not** always preserve the
population size: with three chromosomes and `elitism = 0` the mating loop
runs `⌊3/2⌋ = 1` time and produces only 2 children, so the next population
has 2 members — the source's own `assert_eq!(len_population_before,
self.population.len())` fails.  In general a successful `mate` yields
exactly `2·⌊n_children/2⌋` children, and the new population is the children
followed by the retained elites verbatim. -/
theorem c4_children_parity_bug :
    ((solver3.newGeneration [0, 0, 0] fun _ => mateRand0).map fun s' =>
        s'.population.length) = .ok 2 ∧
    solver3.population.length = 3 ∧
    (∀ (s : Solver) (fitness : List ℚ) (R : ℕ → MateRand) (kids : List Chromosome),
      mate s.population
        (s.population.length - (chooseParents s.population fitness s.elitism).length)
        R = .ok kids →
      ∃ s', s.newGeneration fitness R = .ok s' ∧
        s'.population = kids ++ chooseParents s.population fitness s.elitism ∧
        kids.length = 2 *
          ((s.population.length -
            (chooseParents s.population fitness s.elitism).length) / 2)) := by
  refine ⟨?_, by rfl, ?_⟩
  · unfold Solver.newGeneration
    dsimp only
    rw [show chooseParents solver3.population [0, 0, 0] solver3.elitism = [] from by
      rw [show solver3.elitism = (0 : ℚ) from rfl, chooseParents_zero]]
    rfl
  intro s fitness R kids hmate
  unfold Solver.newGeneration
  dsimp only
  rw [hmate]
  exact ⟨_, rfl, rfl, mate_ok_length _ _ _ _ hmate⟩

/-- Witness for C4's general part: with a single chromosome and
`elitism = 0`, `mate` succeeds with zero children and `new_generation`
succeeds. -/
theorem c4_witness :
    mate solver1.population
      (solver1.population.length -
        (chooseParents solver1.population [0] solver1.elitism).length)
      (fun _ => mateRand0) = .ok [] ∧
    ∃ s', solver1.newGeneration [0] (fun _ => mateRand0) = .ok s' := by
  have hm : mate solver1.population
      (solver1.population.length -
        (chooseParents solver1.population [0] solver1.elitism).length)
      (fun _ => mateRand0) = .ok [] := by
    rw [show solver1.elitism = (0 : ℚ) from rfl, chooseParents_zero]
    rfl
  exact ⟨hm,
    (c4_children_parity_bug.2.2 solver1 [0] (fun _ => mateRand0) [] hm).imp
      fun s' h => h.1⟩

end ClaimGenerationTheorems

section PhysicsLemmas

/-- Adding the clamped difference is "stepping toward the target by at most
`st`" (integer version). -/
theorem add_clampP_int (a b st : ℤ) (hst : 0 ≤ st) :
    a + clampP (b - a) (-st) st = stepToward a b st := by
  unfold clampP stepToward
  simp only [min_def, max_def]
  split_ifs <;> omega

/-- Adding the clamped difference is "stepping toward the target by at most
`st`" (rational version). -/
theorem add_clampP_rat (a b st : ℚ) (hst : 0 ≤ st) :
    a + clampP (b - a) (-st) st = stepToward a b st := by
  unfold clampP stepToward
  simp only [min_def, max_def]
  split_ifs <;> linarith

/-- Stepping toward a target inside `[lo, hi]` stays inside `[lo, hi]`
(integer version). -/
theorem stepToward_bounds_int (a b st lo hi : ℤ) (ha : lo ≤ a) (ha' : a ≤ hi)
    (hb : lo ≤ b) (hb' : b ≤ hi) (hst : 0 ≤ st) :
    lo ≤ stepToward a b st ∧ stepToward a b st ≤ hi := by
  unfold stepToward
  simp only [min_def, max_def]
  split_ifs <;> omega

/-- Stepping toward a target inside `[lo, hi]` stays inside `[lo, hi]`
(rational version). -/
theorem stepToward_bounds_rat (a b st lo hi : ℚ) (ha : lo ≤ a) (ha' : a ≤ hi)
    (hb : lo ≤ b) (hb' : b ≤ hi) (hst : 0 ≤ st) :
    lo ≤ stepToward a b st ∧ stepToward a b st ≤ hi := by
  unfold stepToward
  simp only [min_def, max_def]
  split_ifs <;> exact ⟨by linarith, by linarith⟩

/-- Field-by-field description of a successful `Physics::iterate` under the
default constants: control tracking (rate-clamped, or power cut when fuel is
insufficient), thrust vectorization from the updated angle and power,
half-step kinematics with `G = 3.711`, `dt = 1`, and fuel consumed by the
updated power, floored at zero. -/
theorem iterate_ok_fields (s : LanderState ℝ) (c : Thrust)
    (hv : defaultPhysics.validateThrust c) :
    ∃ s', defaultPhysics.iterate s c = .ok s' ∧
      s'.power = (if s.fuel > c.power then stepToward s.power c.power 1 else 0) ∧
      s'.angle = (if s.fuel > c.power then stepToward s.angle c.angle 15 else s.angle) ∧
      s'.x = s.x + s.vx +
        Real.cos (((s'.angle : ℝ) + 90) * Real.pi / 180) * (s'.power : ℝ) / 2 ∧
      s'.y = s.y + s.vy +
        (Real.sin (((s'.angle : ℝ) + 90) * Real.pi / 180) * (s'.power : ℝ) - 3.711) / 2 ∧
      s'.vx = s.vx +
        Real.cos (((s'.angle : ℝ) + 90) * Real.pi / 180) * (s'.power : ℝ) ∧
      s'.vy = s.vy +
        (Real.sin (((s'.angle : ℝ) + 90) * Real.pi / 180) * (s'.power : ℝ) - 3.711) ∧
      s'.fuel = max 0 (s.fuel - s'.power) := by
  unfold Physics.iterate thrustVector
  rw [if_neg (not_not_intro hv)]
  dsimp only [defaultPhysics]
  by_cases hf : s.fuel > c.power
  · rw [if_pos hf]
    refine ⟨_, rfl, ?_, ?_, ?_, ?_, ?_, ?_, ?_⟩ <;> dsimp only
    · rw [if_pos hf]
      exact add_clampP_int s.power c.power 1 (by norm_num)
    · rw [if_pos hf]
      exact add_clampP_rat s.angle c.angle 15 (by norm_num)
    · ring
    · ring
    · ring
    · ring
    · split_ifs <;> omega
  · rw [if_neg hf]
    refine ⟨_, rfl, ?_, ?_, ?_, ?_, ?_, ?_, ?_⟩ <;> dsimp only
    · rw [if_neg hf]
    · rw [if_neg hf]
    · ring
    · ring
    · ring
    · ring
    · split_ifs <;> omega

end PhysicsLemmas

section ClaimPhysicsTheorems

/-- **C6** (confirmed).  `Physics::iterate` on a valid command: if
`fuel > commanded.power` the current power and angle step toward the
commanded values by at most `POWER_STEP = 1` and `ANGLE_STEP = 15`,
otherwise power is forced to 0 with the angle unchanged; the thrust vector
is `(cos θ · power, sin θ · power)` with `θ = (angle + 90°)` in radians
(using the updated angle and power); position and velocity follow the
constant-acceleration half-step equations with `G = 3.711`, `dt = 1`; and
the new fuel is `max(0, fuel - power)` with the updated power. -/
theorem c6_iterate_algorithm (s : LanderState ℝ) (c : Thrust)
    (hv : defaultPhysics.validateThrust c) :
    ∃ s', defaultPhysics.iterate s c = .ok s' ∧
      s'.power = (if s.fuel > c.power then stepToward s.power c.power 1 else 0) ∧
      s'.angle = (if s.fuel > c.power then stepToward s.angle c.angle 15 else s.angle) ∧
      s'.x = s.x + s.vx +
        Real.cos (((s'.angle : ℝ) + 90) * Real.pi / 180) * (s'.power : ℝ) / 2 ∧
      s'.y = s.y + s.vy +
        (Real.sin (((s'.angle : ℝ) + 90) * Real.pi / 180) * (s'.power : ℝ) - 3.711) / 2 ∧
      s'.vx = s.vx +
        Real.cos (((s'.angle : ℝ) + 90) * Real.pi / 180) * (s'.power : ℝ) ∧
      s'.vy = s.vy +
        (Real.sin (((s'.angle : ℝ) + 90) * Real.pi / 180) * (s'.power : ℝ) - 3.711) ∧
      s'.fuel = max 0 (s.fuel - s'.power) :=
  iterate_ok_fields s c hv

/-- Witness for C6: the `clamping` test command `(angle 16, power 2)` is
valid and `iterate` succeeds on it. -/
theorem c6_witness :
    defaultPhysics.validateThrust cmdW ∧
    ∃ s', defaultPhysics.iterate landerW cmdW = .ok s' :=
  ⟨by decide,
   (c6_iterate_algorithm landerW cmdW (by decide)).imp fun s' h => h.1⟩

/-- **C10** (confirmed).  Under the state invariant
`|angle| ≤ 90 ∧ power ∈ [0,4] ∧ fuel ≥ 0` and a command with
`|angle| ≤ 90 ∧ power ∈ [0,4]` (as produced by accumulated chromosomes,
whose genes are clamped to exactly these ranges), `Physics::iterate` never
returns `InvalidThrust` and its successor satisfies the same invariant. -/
theorem c10_trajectory_invariants :
    (∀ (s : LanderState ℝ) (c : Thrust),
      |s.angle| ≤ 90 → 0 ≤ s.power → s.power ≤ 4 → 0 ≤ s.fuel →
      |c.angle| ≤ 90 → 0 ≤ c.power → c.power ≤ 4 →
      ∃ s', defaultPhysics.iterate s c = .ok s' ∧
        |s'.angle| ≤ 90 ∧ 0 ≤ s'.power ∧ s'.power ≤ 4 ∧ 0 ≤ s'.fuel) ∧
    (∀ (ia it : ℤ) (pop : List Chromosome) (ch : Chromosome),
      ch ∈ accumulatedPopulation ia it pop →
      (∀ a ∈ ch.angles, -90 ≤ a ∧ a ≤ 90) ∧
      (∀ p ∈ ch.thrusts, 0 ≤ p ∧ p ≤ 4)) := by
  constructor
  · intro s c ha hp0 hp4 hfu hca hcp0 hcp4
    have hv : defaultPhysics.validateThrust c := ⟨hca, hcp4, hcp0⟩
    obtain ⟨s', heq, hpow, hang, _, _, _, _, hfuel⟩ := iterate_ok_fields s c hv
    refine ⟨s', heq, ?_, ?_, ?_, ?_⟩
    · rw [hang]
      split_ifs with hf
      · exact abs_le.2 (stepToward_bounds_rat s.angle c.angle 15 (-90) 90
          (abs_le.1 ha).1 (abs_le.1 ha).2 (abs_le.1 hca).1 (abs_le.1 hca).2
          (by norm_num))
      · exact ha
    · rw [hpow]
      split_ifs with hf
      · exact (stepToward_bounds_int s.power c.power 1 0 4 hp0 hp4 hcp0 hcp4
          (by norm_num)).1
      · exact le_refl 0
    · rw [hpow]
      split_ifs with hf
      · exact (stepToward_bounds_int s.power c.power 1 0 4 hp0 hp4 hcp0 hcp4
          (by norm_num)).2
      · norm_num
    · rw [hfuel]
      exact le_max_left 0 _
  · intro ia it pop ch hch
    rw [accPop_eq_map] at hch
    obtain ⟨c0, _, rfl⟩ := List.mem_map.1 hch
    exact ⟨fun a hain => accumulated_mem_bounds (-90) 90 (by norm_num) _ _ _ hain,
           fun p hpin => accumulated_mem_bounds 0 4 (by norm_num) _ _ _ hpin⟩

/-- Witness for C10: a concrete in-invariant state and command. -/
theorem c10_witness :
    |landerW.angle| ≤ 90 ∧ 0 ≤ landerW.power ∧ landerW.power ≤ 4 ∧
    0 ≤ landerW.fuel ∧ |cmdW.angle| ≤ 90 ∧ 0 ≤ cmdW.power ∧ cmdW.power ≤ 4 ∧
    ∃ s', defaultPhysics.iterate landerW cmdW = .ok s' :=
  ⟨by decide, by decide, by decide, by decide, by decide, by decide, by decide,
   (c10_trajectory_invariants.1 landerW cmdW (by decide) (by decide) (by decide)
      (by decide) (by decide) (by decide) (by decide)).imp fun s' h => h.1⟩

end ClaimPhysicsTheorems

section CollisionLemmas

/-- Evaluation helper: a distance whose squared length is a perfect square. -/
theorem distance_eval (a b : Vec2) (n : ℝ) (hn : 0 ≤ n)
    (h : (((a.x - b.x) ^ 2 + (a.y - b.y) ^ 2 : ℚ) : ℝ) = n ^ 2) :
    distance a b = n := by
  unfold distance
  rw [h, Real.sqrt_sq hn]

/-- `segsLen` of a cons. -/
theorem segsLen_cons (s : Vec2 × Vec2) (l : List (Vec2 × Vec2)) :
    segsLen (s :: l) = distance s.1 s.2 + segsLen l := by
  simp [segsLen]

/-- The final pair appended to a point list yields a traversal segment. -/
theorem polySegs_mem_pair (a b : Vec2) :
    ∀ (l : List Vec2) (prev : Vec2), (a, b) ∈ polySegs prev (l ++ [a, b])
  | [], prev => by simp [polySegs]
  | p :: ps, prev => by
    rw [List.cons_append, polySegs]
    exact List.mem_cons_of_mem _ (polySegs_mem_pair a b ps p)

/-- If some traversal segment is flat, the target loop finds one. -/
theorem targetLoop_isSome_of_flat :
    ∀ (segs : List (Vec2 × Vec2)) (d : ℝ),
      (∃ s ∈ segs, s.1.y = s.2.y) → (targetLoop segs d).isSome = true
  | [], _, h => by simp at h
  | (p1, p2) :: rest, d, h => by
    simp only [targetLoop]
    by_cases hy : p1.y = p2.y
    · rw [if_pos hy]
      rfl
    · rw [if_neg hy]
      obtain ⟨s, hs, hflat⟩ := h
      rcases List.mem_cons.1 hs with rfl | hs'
      · exact absurd hflat hy
      · exact targetLoop_isSome_of_flat rest _ ⟨s, hs', hflat⟩

/-- `try_new` can never fail: the closed traversal always ends with the
ceiling segment `((max_x, max_y), (0, max_y))`, whose endpoints share a y. -/
theorem tryNew_isSome (mv mh ast : ℚ) (t : Terrain) :
    (CollisionChecker.tryNew mv mh ast t).isSome = true := by
  have hfl : ∃ s ∈ t.mapSegments, s.1.y = s.2.y := by
    refine ⟨(⟨t.max_x, t.max_y⟩, ⟨0, t.max_y⟩), ?_, rfl⟩
    unfold Terrain.mapSegments
    exact polySegs_mem_pair _ _ t.points _
  have hs := targetLoop_isSome_of_flat t.mapSegments 0 hfl
  unfold CollisionChecker.tryNew targetFromTerrain
  cases htl : targetLoop t.mapSegments 0 with
  | none => rw [htl] at hs; simp at hs
  | some pr => rfl

/-- First-flat-segment characterization of the target loop. -/
theorem targetLoop_split :
    ∀ (segs : List (Vec2 × Vec2)) (d : ℝ) (pr : ℝ × ℝ),
      targetLoop segs d = some pr →
      ∃ pre seg suf, segs = pre ++ seg :: suf ∧
        (∀ u ∈ pre, u.1.y ≠ u.2.y) ∧ seg.1.y = seg.2.y ∧
        pr = (d + segsLen pre, d + segsLen pre + distance seg.1 seg.2)
  | [], d, pr, h => by simp [targetLoop] at h
  | (p1, p2) :: rest, d, pr, h => by
    simp only [targetLoop] at h
    by_cases hy : p1.y = p2.y
    · rw [if_pos hy] at h
      have hpr := (Option.some.inj h).symm
      refine ⟨[], (p1, p2), rest, rfl, by simp, hy, ?_⟩
      rw [hpr]
      simp [segsLen]
    · rw [if_neg hy] at h
      obtain ⟨pre, seg, suf, hsegs, hpre, hflat, hpr⟩ :=
        targetLoop_split rest (d + distance p1 p2) pr h
      refine ⟨(p1, p2) :: pre, seg, suf, by rw [hsegs]; rfl, ?_, hflat, ?_⟩
      · intro u hu
        rcases List.mem_cons.1 hu with rfl | hu'
        · exact hy
        · exact hpre u hu'
      · rw [hpr, segsLen_cons]
        refine Prod.ext ?_ ?_ <;> dsimp only <;> ring

/-- The source's cascaded non-flat/ceiling tests are the claim's single
"flat and below ceiling" test (with the classification chain abstracted). -/
theorem classify_if_eq (y1 y2 my : ℚ) (w chain : Landing ℝ) :
    (if y1 ≠ y2 then w else if y1 ≥ my then w else chain) =
    (if y1 = y2 ∧ y1 < my then chain else w) := by
  by_cases h1 : y1 = y2
  · by_cases h2 : y1 < my
    · rw [if_neg (not_not_intro h1), if_neg (not_le.2 h2),
        if_pos (show y1 = y2 ∧ y1 < my from ⟨h1, h2⟩)]
    · rw [if_neg (not_not_intro h1), if_pos (not_lt.1 h2),
        if_neg (show ¬(y1 = y2 ∧ y1 < my) from fun hc => h2 hc.2)]
  · rw [if_pos h1, if_neg (show ¬(y1 = y2 ∧ y1 < my) from fun hc => h1 hc.1)]

/-- First-hit characterization of the collision-check loop, with the
landing recast into the claim's shape: a flat, below-ceiling segment gets
the speed/angle priority chain on the current state, anything else gets
`WrongTerrain`. -/
theorem checkLoop_split (cc : CollisionChecker) (cur : LanderState ℚ)
    (path : Vec2 × Vec2) :
    ∀ (segs : List (Vec2 × Vec2)) (d : ℝ) (pt : ℚ × ℚ) (l : Landing ℝ),
      cc.checkLoop cur path segs d = some (pt, l) →
      ∃ pre seg suf cp, segs = pre ++ seg :: suf ∧
        (∀ u ∈ pre, check_collision u path = none) ∧
        check_collision seg path = some cp ∧ pt = (cp.x, cp.y) ∧
        l = if seg.1.y = seg.2.y ∧ seg.1.y < cc.terrain.max_y then
              (if |cur.vx| > cc.max_horizontal_speed then
                 Landing.tooFastHorizontal ((|cur.vx| - cc.max_horizontal_speed : ℚ) : ℝ)
               else if |cur.vy| > cc.max_vertical_speed then
                 Landing.tooFastVertical ((|cur.vy| - cc.max_vertical_speed : ℚ) : ℝ)
               else if cur.angle ≠ 0 then Landing.notVertical ((|cur.angle| : ℚ) : ℝ)
               else Landing.correct)
            else Landing.wrongTerrain
              (cc.distFromTarget (d + segsLen pre + distance seg.1 cp))
  | [], d, pt, l, h => by simp [CollisionChecker.checkLoop] at h
  | seg0 :: rest, d, pt, l, h => by
    simp only [CollisionChecker.checkLoop] at h
    cases hcol : check_collision seg0 path with
    | some cp0 =>
      rw [hcol] at h
      simp only [Option.some.injEq, Prod.mk.injEq] at h
      obtain ⟨hpt, hl⟩ := h
      refine ⟨[], seg0, rest, cp0, rfl, by simp, hcol, hpt.symm, ?_⟩
      have hz : d + segsLen ([] : List (Vec2 × Vec2)) + distance seg0.1 cp0 =
          d + distance seg0.1 cp0 := by simp [segsLen]
      rw [hz, ← hl]
      exact (classify_if_eq seg0.1.y seg0.2.y cc.terrain.max_y _ _).symm.symm
    | none =>
      rw [hcol] at h
      obtain ⟨pre, seg, suf, cp, hsegs, hpre, hhit, hpt, hl⟩ :=
        checkLoop_split cc cur path rest (d + distance seg0.1 seg0.2) pt l h
      refine ⟨seg0 :: pre, seg, suf, cp, by rw [hsegs]; rfl, ?_, hhit, hpt, ?_⟩
      · intro u hu
        rcases List.mem_cons.1 hu with rfl | hu'
        · exact hcol
        · exact hpre u hu'
      · rw [hl, segsLen_cons]
        have harith : d + (distance seg0.1 seg0.2 + segsLen pre) + distance seg.1 cp =
            d + distance seg0.1 seg0.2 + segsLen pre + distance seg.1 cp := by ring
        rw [harith]

end CollisionLemmas

section CollisionEvaluations

/-- The closed traversal of the §8 test terrain. -/
theorem terrain8_segs : terrain8.mapSegments =
    [(⟨0, 3000⟩, ⟨0, 200⟩), (⟨0, 200⟩, ⟨2000, 100⟩), (⟨2000, 100⟩, ⟨4000, 100⟩),
     (⟨4000, 100⟩, ⟨7000, 150⟩), (⟨7000, 150⟩, ⟨7000, 3000⟩),
     (⟨7000, 3000⟩, ⟨0, 3000⟩)] := by
  decide

/-- The precomputed target distances of the §8 terrain: the flat pad
`(2000,100)-(4000,100)` lies after the left wall (2800) and the first
ground segment (`√4010000`). -/
theorem target8 : targetFromTerrain terrain8 =
    some (2800 + Real.sqrt 4010000, 4800 + Real.sqrt 4010000) := by
  have d1 : distance (⟨0, 3000⟩ : Vec2) ⟨0, 200⟩ = 2800 :=
    distance_eval _ _ 2800 (by norm_num) (by push_cast; norm_num)
  have d2 : distance (⟨0, 200⟩ : Vec2) ⟨2000, 100⟩ = Real.sqrt 4010000 := by
    unfold distance
    norm_num
  have d3 : distance (⟨2000, 100⟩ : Vec2) ⟨4000, 100⟩ = 2000 :=
    distance_eval _ _ 2000 (by norm_num) (by push_cast; norm_num)
  rw [targetFromTerrain, terrain8_segs]
  simp only [targetLoop]
  norm_num [d1, d2, d3]
  ring

/-- Evaluation of `check` on the `out_of_map1` scenario: the lander exits
the map through the left wall at `(0, 700)`, and the reported `dist` is the
distance to the nearer target endpoint, `500 + √4010000 ≈ 2502.5`. -/
theorem check8_eval :
    ∀ cc : CollisionChecker,
      cc.target = (2800 + Real.sqrt 4010000, 4800 + Real.sqrt 4010000) →
      cc.terrain = terrain8 →
      cc.check prev1 cur1 =
        some ((0, 700), Landing.wrongTerrain (500 + Real.sqrt 4010000)) := by
  intro cc htgt hterr
  have hhit : check_collision (⟨0, 3000⟩, ⟨0, 200⟩) (⟨(1 : ℚ), 700⟩, ⟨-5, 700⟩) =
      some ⟨0, 700⟩ := by
    simp only [check_collision, Vec2.cross, Vec2.dot, Vec2.add, Vec2.subtract, Vec2.scale]
    norm_num
  have dhit : distance (⟨0, 3000⟩ : Vec2) ⟨0, 700⟩ = 2300 :=
    distance_eval _ _ 2300 (by norm_num) (by push_cast; norm_num)
  have hs0 : (0 : ℝ) ≤ Real.sqrt 4010000 := Real.sqrt_nonneg _
  unfold CollisionChecker.check
  dsimp only [prev1, cur1]
  rw [hterr, terrain8_segs]
  simp only [CollisionChecker.checkLoop]
  rw [hhit]
  unfold CollisionChecker.distFromTarget
  rw [htgt]
  dsimp only
  rw [dhit]
  norm_num
  rw [abs_of_nonneg (by linarith), abs_of_nonneg (by linarith),
    min_eq_left (by linarith)]
  ring

end CollisionEvaluations

section ClaimCollisionTheorems

/-- **C1** (code_bug).  On the §8 terrain with previous `(1,700)` and
current `(-5,700)`, `check` does return the collision point `(0, 700)` and
a `WrongTerrain`, but its `dist` field is `500 + √4010000 ≈ 2502.5`, the
least distance to a target-pad endpoint — not `2300`, the cumulative
counter-clockwise distance from the origin-side start that the claim, the
`Landing` doc comment and the source's own `out_of_map1`/`out_of_map5`
tests prescribe. -/
theorem c1_dist_measures_from_target :
    ∃ cc, CollisionChecker.tryNew 40 20 15 terrain8 = some cc ∧
      cc.check prev1 cur1 =
        some ((0, 700), Landing.wrongTerrain (500 + Real.sqrt 4010000)) ∧
      (500 + Real.sqrt 4010000 : ℝ) ≠ 2300 := by
  refine ⟨{ max_vertical_speed := 40, max_horizontal_speed := 20, angle_step := 15,
            target := (2800 + Real.sqrt 4010000, 4800 + Real.sqrt 4010000),
            terrain := terrain8 }, ?_, ?_, ?_⟩
  · rw [CollisionChecker.tryNew, target8]
  · exact check8_eval _ rfl rfl
  · intro hcontra
    have hs : Real.sqrt 4010000 = 1800 := by linarith
    have h2 : Real.sqrt 4010000 ^ 2 = 4010000 := Real.sq_sqrt (by norm_num)
    rw [hs] at h2
    norm_num at h2

/-- **C3 counterexample.**  The polyline `[0,0]-[4000,3000]` has no
consecutive pair of points with equal y, yet construction succeeds — the
closed traversal's ceiling segment always has equal y's, so
`target_from_terrain` never returns `None`. -/
theorem c3_counterexample :
    (∀ s ∈ terrainNoFlat.polylineSegs, s.1.y ≠ s.2.y) ∧
    (CollisionChecker.tryNew 40 20 15 terrainNoFlat).isSome = true :=
  ⟨by decide, tryNew_isSome 40 20 15 terrainNoFlat⟩

/-- **C3** (corrected).  `CollisionChecker` construction never fails, for
every speed/step parameters and every terrain (the ceiling segment of the
closed traversal always has equal y's); and on success the precomputed
target pair equals the cumulative along-polygon distances to the two
endpoints of the first equal-y segment of the closed traversal (which is
the first flat polyline segment whenever one occurs before the walls and
ceiling). -/
theorem c3_construction_and_target :
    (∀ (mv mh ast : ℚ) (t : Terrain),
      (CollisionChecker.tryNew mv mh ast t).isSome = true) ∧
    (∀ t : Terrain, (CollisionChecker.tryWithDefaultLimits t).isSome = true) ∧
    (∀ (t : Terrain) (pr : ℝ × ℝ), targetFromTerrain t = some pr →
      ∃ pre seg suf, t.mapSegments = pre ++ seg :: suf ∧
        (∀ u ∈ pre, u.1.y ≠ u.2.y) ∧ seg.1.y = seg.2.y ∧
        pr = (segsLen pre, segsLen pre + distance seg.1 seg.2)) := by
  refine ⟨tryNew_isSome, fun t => tryNew_isSome 40 20 15 t, ?_⟩
  intro t pr h
  rw [targetFromTerrain] at h
  obtain ⟨pre, seg, suf, hsegs, hpre, hflat, hpr⟩ :=
    targetLoop_split t.mapSegments 0 pr h
  refine ⟨pre, seg, suf, hsegs, hpre, hflat, ?_⟩
  rw [hpr]
  simp

/-- Witness for C3's target characterization, on the §8 terrain. -/
theorem c3_witness :
    ∃ pre seg suf, terrain8.mapSegments = pre ++ seg :: suf ∧
      (∀ u ∈ pre, u.1.y ≠ u.2.y) ∧ seg.1.y = seg.2.y ∧
      ((2800 + Real.sqrt 4010000 : ℝ), (4800 + Real.sqrt 4010000 : ℝ)) =
        (segsLen pre, segsLen pre + distance seg.1 seg.2) :=
  c3_construction_and_target.2.2 terrain8 _ target8

/-- **C8** (confirmed).  Whenever `check` reports a landing, the hit is on
the first traversal segment that intersects the lander path; if that
segment is flat and below the ceiling, the landing is classified on the
current state in strict priority order — `TooFastHorizontal` with
`error_abs = |vx| - max_horizontal_speed` when `|vx|` exceeds the limit,
else `TooFastVertical`, else `NotVertical` with `error_abs = |angle|`,
else `Correct` — while a segment with differing endpoint y's or at
`y ≥ max_y` yields `WrongTerrain` regardless of velocities and angle. -/
theorem c8_priority_classification (cc : CollisionChecker)
    (previous_state current_state : LanderState ℚ) (pt : ℚ × ℚ) (l : Landing ℝ)
    (h : cc.check previous_state current_state = some (pt, l)) :
    ∃ pre seg suf cp,
      cc.terrain.mapSegments = pre ++ seg :: suf ∧
      (∀ u ∈ pre, check_collision u
        (⟨previous_state.x, previous_state.y⟩, ⟨current_state.x, current_state.y⟩) = none) ∧
      check_collision seg
        (⟨previous_state.x, previous_state.y⟩, ⟨current_state.x, current_state.y⟩) = some cp ∧
      pt = (cp.x, cp.y) ∧
      l = if seg.1.y = seg.2.y ∧ seg.1.y < cc.terrain.max_y then
            (if |current_state.vx| > cc.max_horizontal_speed then
               Landing.tooFastHorizontal
                 ((|current_state.vx| - cc.max_horizontal_speed : ℚ) : ℝ)
             else if |current_state.vy| > cc.max_vertical_speed then
               Landing.tooFastVertical
                 ((|current_state.vy| - cc.max_vertical_speed : ℚ) : ℝ)
             else if current_state.angle ≠ 0 then
               Landing.notVertical ((|current_state.angle| : ℚ) : ℝ)
             else Landing.correct)
          else Landing.wrongTerrain
            (cc.distFromTarget (segsLen pre + distance seg.1 cp)) := by
  rw [CollisionChecker.check] at h
  obtain ⟨pre, seg, suf, cp, hsegs, hpre, hhit, hpt, hl⟩ :=
    checkLoop_split cc current_state _ _ 0 pt l h
  refine ⟨pre, seg, suf, cp, hsegs, hpre, hhit, hpt, ?_⟩
  rw [hl]
  simp

end ClaimCollisionTheorems

section ClaimCollisionWitness

/-- Concrete evaluation for the C8 witness: on the pad terrain, the state
dropping through `(5, 0)` with `vx = -30`, `vy = -45`, `angle = 40` is
classified `TooFastHorizontal` with `error_abs = 10` (horizontal priority,
per the spec's §8 priority example). -/
theorem ccPad_check_eval :
    ccPad.check prevPad curPad =
      some ((5, 0), Landing.tooFastHorizontal ((10 : ℚ) : ℝ)) := by
  have h1 : check_collision (⟨0, 3000⟩, ⟨0, 0⟩) (⟨(5 : ℚ), 1⟩, ⟨5, -1⟩) = none := by
    simp only [check_collision, Vec2.cross, Vec2.dot, Vec2.add, Vec2.subtract, Vec2.scale]
    norm_num
  have h2 : check_collision (⟨0, 0⟩, ⟨10, 0⟩) (⟨(5 : ℚ), 1⟩, ⟨5, -1⟩) = some ⟨5, 0⟩ := by
    simp only [check_collision, Vec2.cross, Vec2.dot, Vec2.add, Vec2.subtract, Vec2.scale]
    norm_num
  unfold CollisionChecker.check ccPad prevPad curPad
  dsimp only
  rw [show terrainPad.mapSegments =
      [(⟨0, 3000⟩, ⟨0, 0⟩), (⟨0, 0⟩, ⟨10, 0⟩), (⟨10, 0⟩, ⟨7000, 3000⟩),
       (⟨7000, 3000⟩, ⟨0, 3000⟩)] from by decide]
  simp only [CollisionChecker.checkLoop]
  rw [h1, h2]
  norm_num [terrainPad]

/-- Witness for C8: `check` reports a landing on the pad scenario, and the
first-hit characterization applies to it. -/
theorem c8_witness :
    ccPad.check prevPad curPad =
      some ((5, 0), Landing.tooFastHorizontal ((10 : ℚ) : ℝ)) ∧
    ∃ pre seg suf cp, ccPad.terrain.mapSegments = pre ++ seg :: suf ∧
      check_collision seg (⟨prevPad.x, prevPad.y⟩, ⟨curPad.x, curPad.y⟩) = some cp :=
  ⟨ccPad_check_eval, by
    obtain ⟨pre, seg, suf, cp, hsegs, _, hhit, _, _⟩ :=
      c8_priority_classification ccPad prevPad curPad (5, 0)
        (Landing.tooFastHorizontal ((10 : ℚ) : ℝ)) ccPad_check_eval
    exact ⟨pre, seg, suf, cp, hsegs, hhit⟩⟩

end ClaimCollisionWitness
